import Mathlib

/-!
Verification of the PyCOMPSs task-descriptor composition layer
(`pycompss/api/mpi.py`, `pycompss/api/constraint.py`,
`pycompss/api/data_transformation.py`, `pycompss/runtime/task/core_element.py`).

The Python modules are shallowly embedded: decorator objects become Lean
structures, `dict`s become association lists over `String` keys, raised
exceptions become `Except` errors.  Definitions follow the source files;
pieces of the repository that are imported by these files but are not part
of the sources (the execution-context module, the common decorator base
class, the `@task` machinery) are modelled from the specification and are
marked as such in their doc comments.
-/

namespace Pycompss

/-- Python exceptions raised by the embedded code. -/
inductive PyErr where
  | exception : String → PyErr
  | pycompssException : String → PyErr
  | notImplementedError : PyErr
  | typeError : String → PyErr
  | keyError : String → PyErr
deriving DecidableEq, Repr

/-- Modelled from the spec: the process-wide Execution Context state
(`pycompss.util.context`), one of UNSET, SUBMITTER (master) or WORKER. -/
inductive Role where
  | unset
  | master
  | worker
deriving DecidableEq, Repr

/-- Modelled from the spec: `context.in_pycompss()` / `inScope()` is true iff
the role is not UNSET. -/
def in_pycompss (r : Role) : Bool := r ≠ Role.unset

/-- Modelled from the spec: `context.in_master()` holds exactly in the
SUBMITTER role. -/
def in_master (r : Role) : Bool := r = Role.master

/-- Core element descriptor (`core_element.py`, class `CE`): six fields,
each `None` until assigned. -/
structure CE where
  ceSignature : Option String
  implSignature : Option String
  implConstraints : Option (List (String × String))
  implType : Option String
  implIO : Option Bool
  implTypeArgs : Option (List String)
deriving DecidableEq, Repr

/-- `CE.__init__` with all defaults: every field starts as `None`. -/
def CE.init : CE :=
  { ceSignature := none, implSignature := none, implConstraints := none,
    implType := none, implIO := none, implTypeArgs := none }

/-- `CE.reset`: sets all six fields back to `None`. -/
def CE.reset (_ce : CE) : CE := CE.init

def CE.get_ce_signature (ce : CE) : Option String := ce.ceSignature

def CE.get_impl_signature (ce : CE) : Option String := ce.implSignature

def CE.get_impl_constraints (ce : CE) : Option (List (String × String)) := ce.implConstraints

def CE.get_impl_type (ce : CE) : Option String := ce.implType

def CE.get_impl_io (ce : CE) : Option Bool := ce.implIO

def CE.get_impl_type_args (ce : CE) : Option (List String) := ce.implTypeArgs

/-- `CE.set_ce_signature`: plain assignment of the field. -/
def CE.set_ce_signature (ce : CE) (v : String) : CE := { ce with ceSignature := some v }

/-- `CE.set_impl_signature`: plain assignment of the field. -/
def CE.set_impl_signature (ce : CE) (v : String) : CE := { ce with implSignature := some v }

/-- `CE.set_impl_constraints`: plain assignment of the field. -/
def CE.set_impl_constraints (ce : CE) (v : List (String × String)) : CE :=
  { ce with implConstraints := some v }

/-- `CE.set_impl_type`: plain assignment of the field. -/
def CE.set_impl_type (ce : CE) (v : String) : CE := { ce with implType := some v }

/-- `CE.set_impl_io`: plain assignment of the field. -/
def CE.set_impl_io (ce : CE) (v : Bool) : CE := { ce with implIO := some v }

/-- `CE.set_impl_type_args`: plain assignment of the field. -/
def CE.set_impl_type_args (ce : CE) (v : List String) : CE := { ce with implTypeArgs := some v }

/-- Python values appearing in the embedded decorator kwargs dictionaries. -/
inductive PyVal where
  | str : String → PyVal
  | int : Int → PyVal
  | bool : Bool → PyVal
  | none : PyVal
  | empty : PyVal
  | dict : List (String × PyVal) → PyVal
  | ce : CE → PyVal

/-- Dictionary lookup (`d[k]` / `d.get(k)`) on an association list. -/
def getVal {α : Type} : List (String × α) → String → Option α
  | [], _ => Option.none
  | (k', v) :: rest, k => if k' = k then some v else getVal rest k

/-- Key membership test (`k in d`). -/
def hasKey {α : Type} (d : List (String × α)) (k : String) : Bool := (getVal d k).isSome

/-- Dictionary assignment (`d[k] = v`): replaces the binding of `k` if
present, appends it otherwise. -/
def setVal {α : Type} : List (String × α) → String → α → List (String × α)
  | [], k, v => [(k, v)]
  | (k', v') :: rest, k, v =>
    if k' = k then (k, v) :: rest else (k', v') :: setVal rest k v

/-- Dictionary deletion (`d.pop(k)` discarding the value): removes the
binding of `k` if present. -/
def delKey {α : Type} : List (String × α) → String → List (String × α)
  | [], _ => []
  | (k', v') :: rest, k => if k' = k then rest else (k', v') :: delKey rest k

/-- Whether `pat` is a prefix of `s` (character lists). -/
def prefixOfL : List Char → List Char → Bool
  | [], _ => true
  | _ :: _, [] => false
  | a :: as, b :: bs => a = b && prefixOfL as bs

/-- Substring containment (`pat in s` on Python strings), character lists. -/
def containsSub : List Char → List Char → Bool
  | [], pat => pat.isEmpty
  | a :: rest, pat => prefixOfL pat (a :: rest) || containsSub rest pat

/-- The characters of `s` before the first occurrence of `pat`
(`s.split(pat)[0]`). -/
def takeUntilSub : List Char → List Char → List Char
  | [], _ => []
  | a :: rest, pat => if prefixOfL pat (a :: rest) then [] else a :: takeUntilSub rest pat

/-- Python `"_layout" in key` (`mpi.py` lines 84 and 160). -/
def hasLayout (k : String) : Bool := containsSub k.data "_layout".data

/-- Python `key.split("_layout")[0]` (`mpi.py` line 161). -/
def layoutParamName (k : String) : String := String.mk (takeUntilSub k.data "_layout".data)

/-- Decimal digit string of a natural number, fuel-structured so that it
reduces definitionally. -/
def natStrAux : Nat → Nat → String
  | 0, _ => ""
  | _ + 1, 0 => ""
  | fuel + 1, n => natStrAux fuel (n / 10) ++ String.mk [Char.ofNat (48 + n % 10)]

/-- Python `str` of a nonnegative integer. -/
def natStr (n : Nat) : String := if n = 0 then "0" else natStrAux (n + 1) n

/-- Python `str` of an integer. -/
def intStr : Int → String
  | Int.ofNat n => natStr n
  | Int.negSucc n => "-" ++ natStr (n + 1)

/-- Python `str()` of an embedded value. -/
def pstr : PyVal → String
  | PyVal.str s => s
  | PyVal.int n => intStr n
  | PyVal.bool b => if b then "True" else "False"
  | PyVal.none => "None"
  | PyVal.empty => ""
  | PyVal.dict _ => "dict"
  | PyVal.ce _ => "ce"

/-! ## MPI decorator (`mpi.py`) -/

/-- `MANDATORY_ARGUMENTS` of `mpi.py`. -/
def MANDATORY_ARGUMENTS : List String := ["runner"]

/-- `SUPPORTED_ARGUMENTS` of `mpi.py` (before any layout keys are added). -/
def SUPPORTED_ARGUMENTS : List String :=
  ["binary", "processes", "working_dir", "runner", "flags", "scale_by_cu",
   "fail_by_exit_value"]

/-- `DEPRECATED_ARGUMENTS` of `mpi.py`. -/
def DEPRECATED_ARGUMENTS : List String :=
  ["computing_nodes", "computingNodes", "workingDir"]

/-- Modelled from the spec: `CORE_ELEMENT_KEY` of
`pycompss.api.commons.decorator` (not under `src/`), the reserved call-time
keyword under which the shared core element travels between stacked
decorators.  Its concrete spelling is immaterial to the claims; only that it
differs from ordinary argument names. -/
def CORE_ELEMENT_KEY : String := "compss_core_element"

/-- Modelled from the spec: `check_arguments` of `pycompss.util.arguments`
(not under `src/`); per spec section 4.2 it fails with a configuration error
when a mandatory option is absent or an option is unrecognized. -/
def check_arguments (mandatory supported : List String) (argNames : List String) :
    Except PyErr Unit :=
  if mandatory.all (fun m => argNames.contains m) then
    if argNames.all (fun a => supported.contains a) then Except.ok ()
    else Except.error (PyErr.exception "Unsupported argument")
  else Except.error (PyErr.exception "Mandatory argument missing")

/-- Modelled from the spec: `PyCOMPSsDecorator.__process_computing_nodes__`
(not under `src/`), which normalizes the deprecated computing-nodes option
names; it is the identity when no deprecated option is present (the only
situation the claims exercise). -/
def process_computing_nodes (kwargs : List (String × PyVal)) : List (String × PyVal) :=
  match getVal kwargs "computing_nodes" with
  | some v => setVal (delKey kwargs "computing_nodes") "processes" v
  | Option.none => kwargs

/-- Modelled from the spec: `PyCOMPSsDecorator.__resolve_working_dir__`
(not under `src/`); per the spec, unset optional fields are encoded as the
sentinel string `"[unassigned]"`, so a missing `working_dir` option is
stored as that sentinel. -/
def resolve_working_dir (kwargs : List (String × PyVal)) : List (String × PyVal) :=
  if hasKey kwargs "working_dir" then kwargs
  else setVal kwargs "working_dir" (PyVal.str "[unassigned]")

/-- Modelled from the spec: `PyCOMPSsDecorator.__resolve_fail_by_exit_value__`
(not under `src/`); it stores `str()` of the declared value and defaults to
`"false"` when the option is absent. -/
def resolve_fail_by_exit_value (kwargs : List (String × PyVal)) : List (String × PyVal) :=
  match getVal kwargs "fail_by_exit_value" with
  | some v => setVal kwargs "fail_by_exit_value" (PyVal.str (pstr v))
  | Option.none => setVal kwargs "fail_by_exit_value" (PyVal.str "false")

/-- Modelled from the spec: `not_in_pycompss` of
`pycompss.api.commons.error_msgs` (not under `src/`), the message of the
exception raised when a decorator is used outside the PyCOMPSs scope. -/
def not_in_pycompss (name : String) : String :=
  "The " ++ name ++ " decorator only works within PyCOMPSs framework."

/-- State of one `@mpi` decorator instance (`mpi.py`, class `MPI`): the
`task_type` slot plus the `kwargs`, `scope` and `core_element_configured`
attributes inherited from `PyCOMPSsDecorator`. -/
structure MPIDecor where
  task_type : String
  kwargs : List (String × PyVal)
  scope : Bool
  core_element_configured : Bool

/-- Number of decorator keyword names containing `"_layout"`
(`mpi.py` lines 80-86, the `layout_nums` counter). -/
def layoutCount (kwargs : List (String × PyVal)) : Nat :=
  (kwargs.filter (fun p => hasLayout p.1)).length

/-- `MPI.__init__` (`mpi.py` lines 63-111): records the decorator kwargs and
scope; in scope it counts the `<param>_layout` keys (raising when more than
one is declared), checks the arguments, and defaults `processes` to `1`. -/
def mpi_init (role : Role) (kwargs : List (String × PyVal)) : Except PyErr MPIDecor :=
  let scope := in_pycompss role
  if scope then
    let layout_keys := (kwargs.map Prod.fst).filter hasLayout
    if layoutCount kwargs > 1 then
      Except.error (PyErr.exception "More than one layout definition is not yet supported!")
    else do
      check_arguments MANDATORY_ARGUMENTS
        (SUPPORTED_ARGUMENTS ++ layout_keys ++ DEPRECATED_ARGUMENTS)
        (kwargs.map Prod.fst)
      let kwargs := process_computing_nodes kwargs
      let kwargs := if hasKey kwargs "processes" then kwargs
                    else setVal kwargs "processes" (PyVal.int 1)
      Except.ok { task_type := "mpi", kwargs := kwargs, scope := scope,
                  core_element_configured := false }
  else
    Except.ok { task_type := "mpi", kwargs := kwargs, scope := scope,
                core_element_configured := false }

/-- Body of `MPI.__resolve_collection_layout_params__` (`mpi.py` lines
153-181), applied to the decorator kwargs it iterates over.  Note that the
method's required `kwargs` parameter is unused by this body; see
`mpi_configure` for the consequence at its only call site. -/
def rclp_loop : List (String × PyVal) → String → PyVal → PyVal → PyVal →
    Except PyErr (String × PyVal × PyVal × PyVal)
  | [], pn, bc, bl, st => Except.ok (pn, bc, bl, st)
  | (key, value) :: rest, pn, bc, bl, st =>
    if hasLayout key then
      match value with
      | PyVal.dict d =>
        let param_name := layoutParamName key
        let block_count := (getVal d "block_count").getD (PyVal.int (-1))
        let block_length := (getVal d "block_length").getD (PyVal.int (-1))
        let stride := (getVal d "stride").getD (PyVal.int (-1))
        let eqNegOne : PyVal → Bool := fun v =>
          match v with
          | PyVal.int n => n = -1
          | _ => false
        if (!eqNegOne block_length && eqNegOne block_count) ||
           (!eqNegOne stride && eqNegOne block_count) then
          Except.error (PyErr.exception "Error: collection_layout must contain block_count!")
        else
          rclp_loop rest param_name block_count block_length stride
      | _ => Except.error (PyErr.typeError "argument of type is not iterable")
    else
      rclp_loop rest pn bc bl st

/-- `MPI.__resolve_collection_layout_params__` applied to the stored
decorator kwargs: returns `[param_name, str(block_count), str(block_length),
str(stride)]`, with `""` and `-1` defaults when no layout key is present. -/
def resolve_collection_layout_params (kwargs : List (String × PyVal)) :
    Except PyErr (List String) := do
  let (pn, bc, bl, st) ← rclp_loop kwargs "" (PyVal.int (-1)) (PyVal.int (-1)) (PyVal.int (-1))
  Except.ok [pn, pstr bc, pstr bl, pstr st]

/-- `MPI.__configure_core_element__` (`mpi.py` lines 184-264) up to line 232.
Line 232 calls `self.__resolve_collection_layout_params__()` with no
argument, but the method's definition at line 153 declares a required
positional parameter `kwargs`; Python therefore raises
`TypeError` at that point on every execution, and lines 234-264 are
unreachable.  The embedding reproduces that: after the steps of lines
196-230 it stops with the `TypeError`. -/
def mpi_configure (self : MPIDecor) (callKwargs : List (String × PyVal)) :
    Except PyErr (MPIDecor × List (String × PyVal)) := do
  let (_binary, _impl_type, self) :=
    match getVal self.kwargs "binary" with
    | some b => (b, "MPI", self)
    | Option.none =>
      (PyVal.str "[unassigned]", "PYTHON_MPI", { self with task_type := "PYTHON_MPI" })
  let _runner ← match getVal self.kwargs "runner" with
    | some r => Except.ok r
    | Option.none => Except.error (PyErr.keyError "runner")
  let _flags := (getVal self.kwargs "flags").getD (PyVal.str "[unassigned]")
  let _scale_by_cu_str ← match getVal self.kwargs "scale_by_cu" with
    | some (PyVal.bool b) => Except.ok (if b then "true" else "false")
    | some (PyVal.str s) => Except.ok s
    | some _ => Except.error (PyErr.exception
        "Incorrect format for scale_by_cu property. It should be boolean or an environment variable")
    | Option.none => Except.ok "false"
  let self := { self with kwargs := resolve_working_dir self.kwargs }
  let self := { self with kwargs := resolve_fail_by_exit_value self.kwargs }
  let _ := callKwargs
  Except.error (PyErr.typeError
    "__resolve_collection_layout_params__() missing 1 required positional argument: kwargs")

/-- Lines 234-264 of `MPI.__configure_core_element__`, the continuation that
line 232 would run had it passed the required argument to the layout
resolver: builds `impl_signature` and `impl_args` and writes them (together
with `impl_type`) into the call-time core element, creating one when absent.
All list entries are strings in well-formed declarations, so the embedded
`impl_args` entries are extracted with `pstr` (the identity on strings). -/
def mpi_configure_post (self : MPIDecor) (callKwargs : List (String × PyVal))
    (binary impl_type runner flags scale_by_cu_str : String)
    (collection_layout_params : List String) :
    Except PyErr (MPIDecor × List (String × PyVal)) := do
  let processes := (getVal self.kwargs "processes").getD PyVal.none
  let impl_signature :=
    if binary = "[unassigned]" then impl_type ++ "."
    else impl_type ++ "." ++ pstr processes ++ "." ++ binary
  let working_dir ← match getVal self.kwargs "working_dir" with
    | some v => Except.ok (pstr v)
    | Option.none => Except.error (PyErr.keyError "working_dir")
  let fail_by_exit_value ← match getVal self.kwargs "fail_by_exit_value" with
    | some v => Except.ok (pstr v)
    | Option.none => Except.error (PyErr.keyError "fail_by_exit_value")
  let impl_args := [binary, working_dir, runner, flags, scale_by_cu_str,
                    fail_by_exit_value] ++ collection_layout_params
  match getVal callKwargs CORE_ELEMENT_KEY with
  | some (PyVal.ce ce) =>
    let ce := ((ce.set_impl_type impl_type).set_impl_signature impl_signature
               ).set_impl_type_args impl_args
    Except.ok ({ self with core_element_configured := true },
               setVal callKwargs CORE_ELEMENT_KEY (PyVal.ce ce))
  | some _ => Except.error (PyErr.typeError "core element entry is not a CE")
  | Option.none =>
    let ce := ((CE.init.set_impl_type impl_type).set_impl_signature impl_signature
               ).set_impl_type_args impl_args
    Except.ok ({ self with core_element_configured := true },
               setVal callKwargs CORE_ELEMENT_KEY (PyVal.ce ce))

/-- The `mpi_f` wrapper produced by `MPI.__call__` (`mpi.py` lines 120-149):
raises out of scope; in the master role configures the core element on the
first call; then propagates `processes` as the `computing_nodes` call kwarg
and invokes the wrapped function inside the argument-marshalling scope
(modelled from the spec as restoring the arguments, hence with no effect on
a pure call). -/
def mpi_call (role : Role) (self : MPIDecor) (callArgs : List PyVal)
    (callKwargs : List (String × PyVal))
    (f : List PyVal → List (String × PyVal) → PyVal) :
    Except PyErr (MPIDecor × List (String × PyVal) × PyVal) := do
  if !self.scope then
    Except.error (PyErr.exception (not_in_pycompss "mpi"))
  else do
    let (self, callKwargs) ←
      if in_master role && !self.core_element_configured then
        mpi_configure self callKwargs
      else
        Except.ok (self, callKwargs)
    let processes ← match getVal self.kwargs "processes" with
      | some v => Except.ok v
      | Option.none => Except.error (PyErr.keyError "processes")
    let callKwargs := setVal callKwargs "computing_nodes" processes
    Except.ok (self, callKwargs, f callArgs callKwargs)

/-! ## Constraint decorator (`constraint.py`) -/

/-- State of one `@constraint` decorator instance (`constraint.py`, class
`Constraint`): the constraints dict stored as `kwargs`, plus the `scope`,
`registered` and `module` attributes of the base class. -/
structure ConstraintDecor where
  kwargs : List (String × String)
  scope : Bool
  registered : Bool
  module : Option String
deriving DecidableEq, Repr

/-- The `constrained_f` wrapper produced by `Constraint.__call__`
(`constraint.py` lines 64-97).  Out of scope it delegates to the dummy
constraint decorator, which is not under `src/` and is modelled from the
spec (section 4.2 step 1) as invoking the wrapped function directly.  In the
master role it records the module of the wrapped function (`get_module`,
not under `src/`, passed here as `modName`) and, on the first call, writes
the constraints into the shared core element `cce`
(`pycompss.api.task.current_core_element`, not under `src/`, modelled from
the spec as the descriptor owned by the base task layer) and sets
`registered`. -/
def constrained_call {α β : Type} (role : Role) (modName : String)
    (self : ConstraintDecor) (cce : CE) (f : α → β) (x : α) :
    ConstraintDecor × CE × β :=
  if !self.scope then
    (self, cce, f x)
  else
    if in_master role then
      let self := { self with module := some modName }
      if !self.registered then
        ({ self with registered := true }, cce.set_impl_constraints self.kwargs, f x)
      else
        (self, cce, f x)
    else
      (self, cce, f x)

/-- `n` successive invocations of the same `constrained_f` wrapper,
threading the decorator state and the shared core element. -/
def constrained_calls {α β : Type} (role : Role) (modName : String) (f : α → β) (x : α) :
    Nat → ConstraintDecor × CE → ConstraintDecor × CE
  | 0, st => st
  | n + 1, st =>
    let st' := constrained_calls role modName f x n st
    let r := constrained_call role modName st'.1 st'.2 f x
    (r.1, r.2.1)

/-! ## DataTransformation decorator (`data_transformation.py`) -/

/-- Modelled from the spec: `LABELS.is_workflow` of
`pycompss.api.commons.constants` (not under `src/`), the reserved key that
flags a transformation as an in-process workflow step. -/
def isWorkflowLabel : String := "is_workflow"

/-- Positional arguments stored by the `@dt` decorator: the target parameter
name and the transformation function. -/
inductive DTArgV where
  | s : String → DTArgV
  | f : (PyVal → List (String × PyVal) → PyVal) → DTArgV

/-- State of one `@dt` decorator instance (`data_transformation.py`, class
`DataTransformation`): stored positional `args`, keyword `kwargs`, `scope`
and `core_element_configured` slots (the `core_element` and `user_function`
slots are threaded explicitly where used). -/
structure DTDecor where
  args : List DTArgV
  kwargs : List (String × PyVal)
  scope : Bool
  core_element_configured : Bool

/-- Python truthiness of `v in [True, "True", "true", 1, "1"]`
(`data_transformation.py` line 161; note Python `1 == True`). -/
def truthyLabel : PyVal → Bool
  | PyVal.bool b => b
  | PyVal.str s => s = "True" || s = "true" || s = "1"
  | PyVal.int n => n = 1
  | _ => false

/-- Membership of a name in a list of names (`param_name not in keyz`). -/
def containsStr : List String → String → Bool
  | [], _ => false
  | a :: rest, x => a = x || containsStr rest x

/-- Index of `x` in a list of names (`list(keyz).index(param_name)`), used
only after membership has been established. -/
def idxOfStr (x : String) : List String → Nat
  | [] => 0
  | a :: rest => if a = x then 0 else idxOfStr x rest + 1

/-- Body of the `_transform` task (`data_transformation.py` lines 192-201):
`return function(data, **kwargs)`.  The `@task(returns=object)` wrapper
around it is not under `src/`; modelled from the spec, the wrapped task
yields the task-derived result of that call. -/
def _transform (data : PyVal) (function : PyVal → List (String × PyVal) → PyVal)
    (kwargs : List (String × PyVal)) : PyVal :=
  function data kwargs

/-- `DataTransformation._apply_dt` (`data_transformation.py` lines 148-189):
pops the workflow label from the transformation kwargs, locates the target
parameter's current value (call keyword, else positional at its signature
index, else declared default, else the `inspect` empty sentinel), replaces
it with the transformed value, and returns the updated transformation
kwargs, positional args and call kwargs.  The wrapped function's signature
(`inspect.signature(self.user_function)`) is passed explicitly as `uSig`,
a list of parameter names with optional defaults. -/
def apply_dt (uSig : List (String × Option PyVal)) (param_name : String)
    (func : PyVal → List (String × PyVal) → PyVal)
    (func_kwargs : List (String × PyVal)) (args : List PyVal)
    (kwargs : List (String × PyVal)) :
    Except PyErr (List (String × PyVal) × List PyVal × List (String × PyVal)) :=
  let is_workflow :=
    match getVal func_kwargs isWorkflowLabel with
    | some v => truthyLabel v
    | Option.none => false
  let fk := delKey func_kwargs isWorkflowLabel
  let is_kwarg := hasKey kwargs param_name
  if is_kwarg then
    let p_value := (getVal kwargs param_name).getD PyVal.none
    let new_value := if is_workflow then func p_value fk else _transform p_value func fk
    Except.ok (fk, args, setVal kwargs param_name new_value)
  else
    if containsStr (uSig.map Prod.fst) param_name then
      let i := idxOfStr param_name (uSig.map Prod.fst)
      let p_value :=
        if h : i < args.length then args[i]
        else ((getVal uSig param_name).getD Option.none).getD PyVal.empty
      let new_value := if is_workflow then func p_value fk else _transform p_value func fk
      if h : i < args.length then
        Except.ok (fk, args.set i new_value, kwargs)
      else
        Except.ok (fk, args, setVal kwargs param_name new_value)
    else
      Except.error (PyErr.exception "Wrong Param Name in DT")

/-- `DataTransformation.__call_dt__` (`data_transformation.py` lines
121-146): raises when the call has no positional arguments; pops a call-time
`dt` keyword when present (within the embedded value fragment the popped
value is neither a `DTObject` nor a list of them, so no transformations are
collected, matching Python for such values); otherwise requires at least
two stored decorator arguments and applies the stored transformation. -/
def call_dt (self : DTDecor) (uSig : List (String × Option PyVal))
    (args : List PyVal) (kwargs : List (String × PyVal)) :
    Except PyErr (DTDecor × List PyVal × List (String × PyVal)) :=
  if args.length = 0 then
    Except.error (PyErr.pycompssException "Missing arguments in DT decorator.")
  else if hasKey kwargs "dt" then
    Except.ok (self, args, delKey kwargs "dt")
  else if self.args.length < 2 then
    Except.error (PyErr.pycompssException "Missing arguments in DT decorator.")
  else
    match self.args with
    | DTArgV.s pn :: DTArgV.f g :: _ => do
      let (fk, args', kwargs') ← apply_dt uSig pn g self.kwargs args kwargs
      Except.ok ({ self with kwargs := fk }, args', kwargs')
    | _ =>
      Except.error (PyErr.typeError
        "DT decorator arguments must be a parameter name and a function")

/-- The `dt_f` wrapper produced by `DataTransformation.__call__`
(`data_transformation.py` lines 99-119): raises `NotImplementedError` out of
scope; in the master role (or with nesting enabled) it applies the stored
transformations whenever `core_element_configured` is still false (the flag
is never set by `__call_dt__`); finally it invokes the wrapped function on
the possibly-substituted arguments. -/
def dt_call (role : Role) (nesting : Bool) (self : DTDecor)
    (uSig : List (String × Option PyVal))
    (f : List PyVal → List (String × PyVal) → PyVal)
    (args : List PyVal) (kwargs : List (String × PyVal)) :
    Except PyErr (DTDecor × PyVal) :=
  if !self.scope then
    Except.error PyErr.notImplementedError
  else if (in_master role || nesting) && !self.core_element_configured then do
    let (self', args', kwargs') ← call_dt self uSig args kwargs
    Except.ok (self', f args' kwargs')
  else
    Except.ok (self, f args kwargs)

/-- Modelled from the spec: the Python call-time binding of parameter `x` as
seen by the invoked function — the keyword value when supplied, else the
positional argument at `x`'s signature index, else the declared default
(else the `inspect` empty sentinel). -/
def bindParam (uSig : List (String × Option PyVal)) (x : String)
    (args : List PyVal) (kwargs : List (String × PyVal)) : PyVal :=
  match getVal kwargs x with
  | some v => v
  | Option.none =>
    let i := idxOfStr x (uSig.map Prod.fst)
    if h : i < args.length then args[i]
    else ((getVal uSig x).getD Option.none).getD PyVal.empty

/-! ## Dictionary lemmas -/

theorem getVal_setVal_self {α : Type} (d : List (String × α)) (k : String) (v : α) :
    getVal (setVal d k v) k = some v := by
  induction d with
  | nil => simp [setVal, getVal]
  | cons p rest ih =>
    obtain ⟨pk, pv⟩ := p
    by_cases h : pk = k
    · subst h
      simp [setVal, getVal]
    · simp [setVal, getVal, h, ih]

theorem getVal_setVal_ne {α : Type} (d : List (String × α)) (k q : String) (v : α)
    (h : q ≠ k) : getVal (setVal d k v) q = getVal d q := by
  have hk : ¬(k = q) := fun e => h e.symm
  induction d with
  | nil => simp [setVal, getVal, hk]
  | cons p rest ih =>
    obtain ⟨pk, pv⟩ := p
    by_cases hp : pk = k
    · subst hp
      simp [setVal, getVal, hk]
    · by_cases hq : pk = q
      · subst hq
        simp [setVal, getVal, hp]
      · simp [setVal, getVal, hp, hq, ih]

theorem getVal_eq_none_of_hasKey_false {α : Type} (d : List (String × α)) (k : String)
    (h : hasKey d k = false) : getVal d k = Option.none := by
  cases hg : getVal d k with
  | none => rfl
  | some v => rw [hasKey, hg] at h; simp at h

theorem except_bind_ok {ε α β : Type} (a : α) (f : α → Except ε β) :
    (Except.ok a : Except ε α) >>= f = f a := rfl

theorem except_bind_error {ε α β : Type} (e : ε) (f : α → Except ε β) :
    (Except.error e : Except ε α) >>= f = Except.error e := rfl

/-! ## Claim theorems -/

/-- C10.  Each of the six `CE` setters changes only its own field (the
getters of the other five are unchanged and the setter's own getter returns
exactly the value just set), and `reset` sets all six fields to `None`. -/
theorem ce_accessor_frame_conditions :
    (∀ (ce : CE) (v : String),
      (ce.set_ce_signature v).get_ce_signature = some v ∧
      (ce.set_ce_signature v).get_impl_signature = ce.get_impl_signature ∧
      (ce.set_ce_signature v).get_impl_constraints = ce.get_impl_constraints ∧
      (ce.set_ce_signature v).get_impl_type = ce.get_impl_type ∧
      (ce.set_ce_signature v).get_impl_io = ce.get_impl_io ∧
      (ce.set_ce_signature v).get_impl_type_args = ce.get_impl_type_args) ∧
    (∀ (ce : CE) (v : String),
      (ce.set_impl_signature v).get_impl_signature = some v ∧
      (ce.set_impl_signature v).get_ce_signature = ce.get_ce_signature ∧
      (ce.set_impl_signature v).get_impl_constraints = ce.get_impl_constraints ∧
      (ce.set_impl_signature v).get_impl_type = ce.get_impl_type ∧
      (ce.set_impl_signature v).get_impl_io = ce.get_impl_io ∧
      (ce.set_impl_signature v).get_impl_type_args = ce.get_impl_type_args) ∧
    (∀ (ce : CE) (v : List (String × String)),
      (ce.set_impl_constraints v).get_impl_constraints = some v ∧
      (ce.set_impl_constraints v).get_ce_signature = ce.get_ce_signature ∧
      (ce.set_impl_constraints v).get_impl_signature = ce.get_impl_signature ∧
      (ce.set_impl_constraints v).get_impl_type = ce.get_impl_type ∧
      (ce.set_impl_constraints v).get_impl_io = ce.get_impl_io ∧
      (ce.set_impl_constraints v).get_impl_type_args = ce.get_impl_type_args) ∧
    (∀ (ce : CE) (v : String),
      (ce.set_impl_type v).get_impl_type = some v ∧
      (ce.set_impl_type v).get_ce_signature = ce.get_ce_signature ∧
      (ce.set_impl_type v).get_impl_signature = ce.get_impl_signature ∧
      (ce.set_impl_type v).get_impl_constraints = ce.get_impl_constraints ∧
      (ce.set_impl_type v).get_impl_io = ce.get_impl_io ∧
      (ce.set_impl_type v).get_impl_type_args = ce.get_impl_type_args) ∧
    (∀ (ce : CE) (v : Bool),
      (ce.set_impl_io v).get_impl_io = some v ∧
      (ce.set_impl_io v).get_ce_signature = ce.get_ce_signature ∧
      (ce.set_impl_io v).get_impl_signature = ce.get_impl_signature ∧
      (ce.set_impl_io v).get_impl_constraints = ce.get_impl_constraints ∧
      (ce.set_impl_io v).get_impl_type = ce.get_impl_type ∧
      (ce.set_impl_io v).get_impl_type_args = ce.get_impl_type_args) ∧
    (∀ (ce : CE) (v : List String),
      (ce.set_impl_type_args v).get_impl_type_args = some v ∧
      (ce.set_impl_type_args v).get_ce_signature = ce.get_ce_signature ∧
      (ce.set_impl_type_args v).get_impl_signature = ce.get_impl_signature ∧
      (ce.set_impl_type_args v).get_impl_constraints = ce.get_impl_constraints ∧
      (ce.set_impl_type_args v).get_impl_type = ce.get_impl_type ∧
      (ce.set_impl_type_args v).get_impl_io = ce.get_impl_io) ∧
    (∀ ce : CE,
      ce.reset.get_ce_signature = none ∧
      ce.reset.get_impl_signature = none ∧
      ce.reset.get_impl_constraints = none ∧
      ce.reset.get_impl_type = none ∧
      ce.reset.get_impl_io = none ∧
      ce.reset.get_impl_type_args = none) := by
  refine ⟨?_, ?_, ?_, ?_, ?_, ?_, ?_⟩ <;> intros <;>
    exact ⟨rfl, rfl, rfl, rfl, rfl, rfl⟩

/-- C4 counterexample.  A second write to an already-set `CE` field does
not raise: the setters of `core_element.py` are unconditional assignments
(total functions with no error outcome), so the second value silently
replaces the first — here `implType` set to `"MPI"` and then to
`"PYTHON_MPI"` ends as `"PYTHON_MPI"`, and similarly for constraints. -/
theorem ce_second_set_overwrites_cex :
    ((CE.init.set_impl_type "MPI").set_impl_type "PYTHON_MPI").get_impl_type =
      some "PYTHON_MPI" ∧
    (CE.init.set_impl_type "MPI").get_impl_type = some "MPI" ∧
    ((CE.init.set_impl_constraints [("cores", "4")]).set_impl_constraints
        [("cores", "8")]).get_impl_constraints = some [("cores", "8")] :=
  ⟨rfl, rfl, rfl⟩

/-- C4 amended.  Every `CE` setter is an unconditional assignment: writing a
field that is already set silently overwrites it with the new value (no
`DescriptorConflictError` exists in the code). -/
theorem ce_setters_overwrite :
    ∀ (ce : CE) (s t : String) (c d : List (String × String)) (b b' : Bool)
      (l l' : List String),
      ((ce.set_ce_signature s).set_ce_signature t).get_ce_signature = some t ∧
      ((ce.set_impl_signature s).set_impl_signature t).get_impl_signature = some t ∧
      ((ce.set_impl_constraints c).set_impl_constraints d).get_impl_constraints = some d ∧
      ((ce.set_impl_type s).set_impl_type t).get_impl_type = some t ∧
      ((ce.set_impl_io b).set_impl_io b').get_impl_io = some b' ∧
      ((ce.set_impl_type_args l).set_impl_type_args l').get_impl_type_args = some l' := by
  intros
  exact ⟨rfl, rfl, rfl, rfl, rfl, rfl⟩

/-- C3.  Declaring an in-scope `@mpi` decorator with two or more keyword
options whose names contain `"_layout"` raises at declaration time
(`mpi.py` lines 80-89), before the wrapped function can ever be called;
the raised error is the configuration error of the spec's taxonomy. -/
theorem mpi_two_layouts_init_raises (role : Role) (kwargs : List (String × PyVal))
    (hrole : role ≠ Role.unset) (hcount : 2 ≤ layoutCount kwargs) :
    mpi_init role kwargs =
      Except.error (PyErr.exception "More than one layout definition is not yet supported!") := by
  have hs : in_pycompss role = true := by
    simp [in_pycompss, hrole]
  have hc : layoutCount kwargs > 1 := hcount
  simp [mpi_init, hs, hc]

/-- C3 witness. -/
theorem mpi_two_layouts_init_raises_witness :
    mpi_init Role.master
        [("a_layout", PyVal.dict []), ("b_layout", PyVal.dict []),
         ("runner", PyVal.str "r")] =
      Except.error (PyErr.exception "More than one layout definition is not yet supported!") :=
  mpi_two_layouts_init_raises _ _ (by decide) (by decide)

/-- C2 counterexample.  An `@mpi` task declared and called out of scope
(Execution Context UNSET) does not degrade to a direct local call: the
wrapper raises (`mpi.py` lines 122-123), so the call is an error rather
than returning the unwrapped function's result. -/
theorem mpi_out_of_scope_call_raises_cex :
    (mpi_init Role.unset [("runner", PyVal.str "mpirun")]).bind
      (fun st => mpi_call Role.unset st [PyVal.int 3] []
        (fun a _ => a.headD PyVal.none)) =
      Except.error (PyErr.exception (not_in_pycompss "mpi")) := rfl

/-- C2 amended.  Out of scope, only the constraint decorator degrades to a
direct local invocation (through the dummy constraint, returning exactly the
unwrapped function's result); the `@mpi` wrapper raises the
not-in-PyCOMPSs exception and the `@dt` wrapper raises
`NotImplementedError`. -/
theorem out_of_scope_behavior :
    (∀ (α β : Type) (f : α → β) (x : α) (role : Role) (modName : String)
       (self : ConstraintDecor) (cce : CE), self.scope = false →
       constrained_call role modName self cce f x = (self, cce, f x)) ∧
    (∀ (role : Role) (self : MPIDecor) (cargs : List PyVal)
       (ck : List (String × PyVal))
       (f : List PyVal → List (String × PyVal) → PyVal), self.scope = false →
       mpi_call role self cargs ck f =
         Except.error (PyErr.exception (not_in_pycompss "mpi"))) ∧
    (∀ (role : Role) (nesting : Bool) (self : DTDecor)
       (uSig : List (String × Option PyVal))
       (f : List PyVal → List (String × PyVal) → PyVal)
       (args : List PyVal) (kwargs : List (String × PyVal)), self.scope = false →
       dt_call role nesting self uSig f args kwargs =
         Except.error PyErr.notImplementedError) := by
  refine ⟨?_, ?_, ?_⟩
  · intro α β f x role modName self cce h
    simp [constrained_call, h]
  · intro role self cargs ck f h
    simp [mpi_call, h]
  · intro role nesting self uSig f args kwargs h
    simp [dt_call, h]

/-- C2 amended witness. -/
theorem out_of_scope_behavior_witness :
    constrained_call Role.unset "m"
        { kwargs := [("cores", "4")], scope := false, registered := false,
          module := Option.none } CE.init (fun n : Nat => n + 1) 41 =
      ({ kwargs := [("cores", "4")], scope := false, registered := false,
         module := Option.none }, CE.init, 42) ∧
    mpi_call Role.unset
        { task_type := "mpi", kwargs := [("runner", PyVal.str "r")], scope := false,
          core_element_configured := false } [] [] (fun _ _ => PyVal.none) =
      Except.error (PyErr.exception (not_in_pycompss "mpi")) ∧
    dt_call Role.unset false
        { args := [], kwargs := [], scope := false, core_element_configured := false }
        [] (fun _ _ => PyVal.none) [] [] =
      Except.error PyErr.notImplementedError :=
  ⟨out_of_scope_behavior.1 _ _ _ _ _ _ _ _ rfl,
   out_of_scope_behavior.2.1 _ _ _ _ _ rfl,
   out_of_scope_behavior.2.2 _ _ _ _ _ _ _ rfl⟩

/-- C1.  An `@mpi` task declared with only a runner (no binary, flags or
layout) never reaches the claimed ten-element `implementationArgs`: the
first submitter-side call raises `TypeError`, because line 232 of `mpi.py`
calls `__resolve_collection_layout_params__` without the positional
`kwargs` argument its definition at line 153 requires.  The remaining
conjuncts evaluate the two halves the configure step would otherwise
combine: the layout resolver applied to the decorator kwargs yields
`["", "-1", "-1", "-1"]`, and the unreachable continuation (lines 234-261)
applied to that result writes exactly the claimed ten-element list
`["[unassigned]", workingDir, runner, "[unassigned]", "false",
failByExitValue, "", "-1", "-1", "-1"]`. -/
theorem mpi_sentinel_configure_crashes :
    (mpi_init Role.master [("runner", PyVal.str "mpirun")]).bind
      (fun st => mpi_call Role.master st [] [] (fun _ _ => PyVal.none)) =
      Except.error (PyErr.typeError
        "__resolve_collection_layout_params__() missing 1 required positional argument: kwargs") ∧
    resolve_collection_layout_params
      [("runner", PyVal.str "mpirun"), ("processes", PyVal.int 1),
       ("working_dir", PyVal.str "[unassigned]"),
       ("fail_by_exit_value", PyVal.str "false")] =
      Except.ok ["", "-1", "-1", "-1"] ∧
    (mpi_configure_post
        { task_type := "PYTHON_MPI",
          kwargs := [("runner", PyVal.str "mpirun"), ("processes", PyVal.int 1),
                     ("working_dir", PyVal.str "[unassigned]"),
                     ("fail_by_exit_value", PyVal.str "false")],
          scope := true, core_element_configured := false }
        [] "[unassigned]" "PYTHON_MPI" "mpirun" "[unassigned]" "false"
        ["", "-1", "-1", "-1"]).map
      (fun r =>
        match getVal r.2 CORE_ELEMENT_KEY with
        | some (PyVal.ce ce) => ce.get_impl_type_args
        | _ => Option.none) =
      Except.ok (some ["[unassigned]", "[unassigned]", "mpirun", "[unassigned]",
                       "false", "false", "", "-1", "-1", "-1"]) :=
  ⟨rfl, rfl, rfl⟩

/-- C9.  `processes` does default to `1` when not supplied at declaration
(`mpi.py` lines 102-103), but the submitter-side configure step never sets
`implementationType`: with or without a `binary` option the first call
raises `TypeError` (line 232 calls the layout resolver without its required
argument) before any `set_impl_type` call is reached. -/
theorem mpi_impl_type_configure_crashes :
    (mpi_init Role.master [("runner", PyVal.str "m")]).map
      (fun st => getVal st.kwargs "processes") = Except.ok (some (PyVal.int 1)) ∧
    (mpi_init Role.master [("runner", PyVal.str "m"), ("binary", PyVal.str "./app")]).bind
      (fun st => mpi_call Role.master st [] [] (fun _ _ => PyVal.none)) =
      Except.error (PyErr.typeError
        "__resolve_collection_layout_params__() missing 1 required positional argument: kwargs") ∧
    (mpi_init Role.master [("runner", PyVal.str "m")]).bind
      (fun st => mpi_call Role.master st [] [] (fun _ _ => PyVal.none)) =
      Except.error (PyErr.typeError
        "__resolve_collection_layout_params__() missing 1 required positional argument: kwargs") :=
  ⟨rfl, rfl, rfl⟩

/-- C6.  In the WORKER role neither wrapper ever writes the task
descriptor: any number of `constrained_f` calls leaves the decorator state
and the shared core element exactly as they were, and an `mpi_f` call
leaves the decorator state unchanged and only adds the `computing_nodes`
call kwarg, so the core-element entry of the call kwargs is untouched. -/
theorem worker_never_writes_descriptor :
    (∀ (α β : Type) (modName : String) (f : α → β) (x : α) (n : Nat)
       (self : ConstraintDecor) (cce : CE),
       constrained_calls Role.worker modName f x n (self, cce) = (self, cce)) ∧
    (∀ (self : MPIDecor) (cargs : List PyVal) (ck : List (String × PyVal))
       (f : List PyVal → List (String × PyVal) → PyVal) (p : PyVal),
       self.scope = true → getVal self.kwargs "processes" = some p →
       mpi_call Role.worker self cargs ck f =
         Except.ok (self, setVal ck "computing_nodes" p,
                    f cargs (setVal ck "computing_nodes" p)) ∧
       getVal (setVal ck "computing_nodes" p) CORE_ELEMENT_KEY =
         getVal ck CORE_ELEMENT_KEY) := by
  constructor
  · intro α β modName f x n self cce
    induction n with
    | zero => rfl
    | succ m ih =>
      simp only [constrained_calls, ih]
      simp [constrained_call, in_master]
  · intro self cargs ck f p hs hp
    constructor
    · simp [mpi_call, hs, in_master, hp, except_bind_ok]
    · exact getVal_setVal_ne ck "computing_nodes" CORE_ELEMENT_KEY p (by decide)

/-- C6 witness. -/
theorem worker_never_writes_descriptor_witness :
    constrained_calls Role.worker "m" (fun n : Nat => n) 0 3
        ({ kwargs := [("cores", "4")], scope := true, registered := true,
           module := Option.none }, CE.init) =
      ({ kwargs := [("cores", "4")], scope := true, registered := true,
         module := Option.none }, CE.init) ∧
    mpi_call Role.worker
        { task_type := "mpi", kwargs := [("processes", PyVal.int 1)], scope := true,
          core_element_configured := true }
        [] [(CORE_ELEMENT_KEY, PyVal.ce CE.init)] (fun _ _ => PyVal.none) =
      Except.ok
        ({ task_type := "mpi", kwargs := [("processes", PyVal.int 1)], scope := true,
           core_element_configured := true },
         setVal [(CORE_ELEMENT_KEY, PyVal.ce CE.init)] "computing_nodes" (PyVal.int 1),
         PyVal.none) ∧
    getVal (setVal [(CORE_ELEMENT_KEY, PyVal.ce CE.init)] "computing_nodes"
        (PyVal.int 1)) CORE_ELEMENT_KEY =
      getVal [(CORE_ELEMENT_KEY, PyVal.ce CE.init)] CORE_ELEMENT_KEY :=
  ⟨worker_never_writes_descriptor.1 _ _ _ _ _ _ _ _,
   (worker_never_writes_descriptor.2
      { task_type := "mpi", kwargs := [("processes", PyVal.int 1)], scope := true,
        core_element_configured := true }
      [] [(CORE_ELEMENT_KEY, PyVal.ce CE.init)] (fun _ _ => PyVal.none)
      (PyVal.int 1) rfl rfl).1,
   (worker_never_writes_descriptor.2
      { task_type := "mpi", kwargs := [("processes", PyVal.int 1)], scope := true,
        core_element_configured := true }
      [] [(CORE_ELEMENT_KEY, PyVal.ce CE.init)] (fun _ _ => PyVal.none)
      (PyVal.int 1) rfl rfl).2⟩

/-- C5 counterexample.  For a `@dt`-annotated task the first in-scope
submitter call does not set the registration flag: `__call_dt__` never
assigns `core_element_configured`, so after the first master call the flag
is still `false` (and the configuration step therefore reruns on every
later master call), contradicting the claim for "every annotated task". -/
theorem dt_first_call_flag_not_set_cex :
    (dt_call Role.master false
        { args := [DTArgV.s "x", DTArgV.f (fun v _ => v)], kwargs := [],
          scope := true, core_element_configured := false }
        [("x", Option.none)] (fun _ _ => PyVal.none) [PyVal.int 5] []).map
      (fun r => r.1.core_element_configured) = Except.ok false := rfl

/-- C5 amended.  For a `@constraint`-annotated task the claim holds: in the
master role the first call writes the constraints and sets `registered`,
every later call skips configuration, and the decorator/descriptor state
after call 1 equals the state after call `n` for every `n ≥ 1`.  (The `@dt`
wrapper never sets its flag — see the counterexample — and the `@mpi`
configure step raises before setting its flag.) -/
theorem constraint_configures_once {α β : Type} (self : ConstraintDecor) (cce : CE)
    (modName : String) (f : α → β) (x : α) (n : Nat)
    (hs : self.scope = true) (hn : 1 ≤ n) :
    constrained_calls Role.master modName f x n (self, cce) =
      constrained_calls Role.master modName f x 1 (self, cce) ∧
    (constrained_calls Role.master modName f x 1 (self, cce)).1.registered = true := by
  have hstep : ∀ (s : ConstraintDecor) (c : CE), s.scope = true → s.registered = true →
      s.module = some modName →
      constrained_call Role.master modName s c f x = (s, c, f x) := by
    intro s c h1 h2 h3
    cases s with
    | mk kw sc reg md =>
      simp only at h1 h2 h3
      subst h1
      subst h2
      subst h3
      simp [constrained_call, in_master]
  have hone : (constrained_calls Role.master modName f x 1 (self, cce)).1.scope = true ∧
      (constrained_calls Role.master modName f x 1 (self, cce)).1.registered = true ∧
      (constrained_calls Role.master modName f x 1 (self, cce)).1.module = some modName := by
    by_cases hr : self.registered <;>
      simp [constrained_calls, constrained_call, in_master, hs, hr]
  refine ⟨?_, hone.2.1⟩
  obtain ⟨k, rfl⟩ : ∃ k, n = k + 1 := ⟨n - 1, (Nat.succ_pred_eq_of_pos hn).symm⟩
  induction k with
  | zero => rfl
  | succ m ih =>
    have hm : 1 ≤ m + 1 := Nat.succ_le_succ (Nat.zero_le m)
    have e2 : constrained_calls Role.master modName f x (m + 1 + 1) (self, cce) =
        (let st' := constrained_calls Role.master modName f x (m + 1) (self, cce)
         let r := constrained_call Role.master modName st'.1 st'.2 f x
         (r.1, r.2.1)) := rfl
    rw [e2]
    simp only [ih hm]
    rw [hstep _ _ hone.1 hone.2.1 hone.2.2]

/-- C5 amended witness. -/
theorem constraint_configures_once_witness :
    constrained_calls Role.master "mod" (fun n : Nat => n) 0 3
        ({ kwargs := [("cores", "4")], scope := true, registered := false,
           module := Option.none }, CE.init) =
      constrained_calls Role.master "mod" (fun n : Nat => n) 0 1
        ({ kwargs := [("cores", "4")], scope := true, registered := false,
           module := Option.none }, CE.init) ∧
    (constrained_calls Role.master "mod" (fun n : Nat => n) 0 1
        ({ kwargs := [("cores", "4")], scope := true, registered := false,
           module := Option.none }, CE.init)).1.registered = true :=
  constraint_configures_once
    { kwargs := [("cores", "4")], scope := true, registered := false,
      module := Option.none }
    CE.init "mod" (fun n : Nat => n) 0 3 rfl (by decide)

/-- C8.  The first in-scope submitter call of a `@dt`-annotated task
raises: (a) the missing-arguments error when no call-time `dt` keyword is
supplied and fewer than two decorator arguments are stored (this also
covers a call with no positional arguments, which hits the same error one
line earlier); and (b) the wrong-parameter error when the stored target
parameter is neither a call keyword nor a parameter of the wrapped
function's signature. -/
theorem dt_error_conditions :
    (∀ (self : DTDecor) (uSig : List (String × Option PyVal))
       (f : List PyVal → List (String × PyVal) → PyVal)
       (args : List PyVal) (kwargs : List (String × PyVal)) (nesting : Bool),
       self.scope = true → self.core_element_configured = false →
       hasKey kwargs "dt" = false → self.args.length < 2 →
       dt_call Role.master nesting self uSig f args kwargs =
         Except.error (PyErr.pycompssException "Missing arguments in DT decorator.")) ∧
    (∀ (self : DTDecor) (uSig : List (String × Option PyVal)) (x : String)
       (g : PyVal → List (String × PyVal) → PyVal)
       (f : List PyVal → List (String × PyVal) → PyVal)
       (args : List PyVal) (kwargs : List (String × PyVal)) (nesting : Bool),
       self.scope = true → self.core_element_configured = false →
       args ≠ [] → hasKey kwargs "dt" = false →
       self.args = [DTArgV.s x, DTArgV.f g] →
       hasKey kwargs x = false → containsStr (uSig.map Prod.fst) x = false →
       dt_call Role.master nesting self uSig f args kwargs =
         Except.error (PyErr.exception "Wrong Param Name in DT")) := by
  constructor
  · intro self uSig f args kwargs nesting hscope hconf hdt h2
    by_cases hl : args.length = 0
    · simp [dt_call, call_dt, hscope, hconf, in_master, hl, except_bind_error]
    · simp [dt_call, call_dt, hscope, hconf, in_master, hl, hdt, h2, except_bind_error]
  · intro self uSig x g f args kwargs nesting hscope hconf hne hdt hargs hkx hxs
    have hlen : ¬(args.length = 0) := fun h => hne (List.length_eq_zero.mp h)
    simp [dt_call, call_dt, apply_dt, hscope, hconf, in_master, hlen, hdt, hargs,
          hkx, hxs, except_bind_error]

/-- C8 witness. -/
theorem dt_error_conditions_witness :
    dt_call Role.master false
        { args := [DTArgV.s "x"], kwargs := [], scope := true,
          core_element_configured := false }
        [("x", Option.none)] (fun _ _ => PyVal.none) [PyVal.int 1] [] =
      Except.error (PyErr.pycompssException "Missing arguments in DT decorator.") ∧
    dt_call Role.master false
        { args := [DTArgV.s "y", DTArgV.f (fun v _ => v)], kwargs := [],
          scope := true, core_element_configured := false }
        [("x", Option.none)] (fun _ _ => PyVal.none) [PyVal.int 1] [] =
      Except.error (PyErr.exception "Wrong Param Name in DT") :=
  ⟨dt_error_conditions.1
      { args := [DTArgV.s "x"], kwargs := [], scope := true,
        core_element_configured := false }
      [("x", Option.none)] (fun _ _ => PyVal.none) [PyVal.int 1] [] false
      rfl rfl rfl (by decide),
   dt_error_conditions.2
      { args := [DTArgV.s "y", DTArgV.f (fun v _ => v)], kwargs := [],
        scope := true, core_element_configured := false }
      [("x", Option.none)] "y" (fun v _ => v) (fun _ _ => PyVal.none)
      [PyVal.int 1] [] false rfl rfl (by simp) rfl rfl rfl (by decide)⟩

/-- C7.  For a `@dt`-annotated task whose decorator stores target parameter
`x` and transform `g`, an in-scope first submitter call hands the wrapped
function the transformed value in place of the original: the value of `x`
the callee observes (keyword if supplied, else positional at `x`'s
signature index, else the declared default) is `g` applied to the value the
caller supplied under the same resolution, with the workflow label removed
from the stored transform kwargs. -/
theorem dt_substitution (self : DTDecor) (uSig : List (String × Option PyVal))
    (x : String) (g : PyVal → List (String × PyVal) → PyVal) (nesting : Bool)
    (args : List PyVal) (kwargs : List (String × PyVal))
    (hscope : self.scope = true) (hconf : self.core_element_configured = false)
    (hargs : self.args = [DTArgV.s x, DTArgV.f g])
    (hne : args ≠ []) (hdt : hasKey kwargs "dt" = false)
    (hx : containsStr (uSig.map Prod.fst) x = true) :
    dt_call Role.master nesting self uSig (bindParam uSig x) args kwargs =
      Except.ok ({ self with kwargs := delKey self.kwargs isWorkflowLabel },
                 g (bindParam uSig x args kwargs)
                   (delKey self.kwargs isWorkflowLabel)) := by
  have hlen : ¬(args.length = 0) := fun h => hne (List.length_eq_zero.mp h)
  simp only [dt_call, hscope, hconf, in_master, call_dt, hlen, hdt, hargs]
  by_cases hk : hasKey kwargs x
  · obtain ⟨v, hv⟩ := Option.isSome_iff_exists.mp hk
    simp [apply_dt, hk, hv, _transform, except_bind_ok, bindParam, getVal_setVal_self]
  · have hnone : getVal kwargs x = Option.none :=
      getVal_eq_none_of_hasKey_false kwargs x (by simpa using hk)
    by_cases hi : idxOfStr x (uSig.map Prod.fst) < args.length
    · simp only [apply_dt, hk, Bool.false_eq_true, if_false, hx, if_true, dif_pos hi,
        _transform, ite_self, except_bind_ok]
      simp [bindParam, hnone, hi, except_bind_ok]
    · simp only [apply_dt, hk, Bool.false_eq_true, if_false, hx, if_true, dif_neg hi,
        _transform, ite_self, except_bind_ok]
      simp [bindParam, hnone, hi, getVal_setVal_self, except_bind_ok]

/-- C7 witness: `f(5)` with transform doubling the value makes the wrapped
function observe `10`. -/
theorem dt_substitution_witness :
    dt_call Role.master false
        { args := [DTArgV.s "x",
                   DTArgV.f (fun v _ => match v with
                             | PyVal.int n => PyVal.int (n + n)
                             | w => w)],
          kwargs := [], scope := true, core_element_configured := false }
        [("x", Option.none)] (bindParam [("x", Option.none)] "x") [PyVal.int 5] [] =
      Except.ok ({ args := [DTArgV.s "x",
                            DTArgV.f (fun v _ => match v with
                                      | PyVal.int n => PyVal.int (n + n)
                                      | w => w)],
                   kwargs := [], scope := true, core_element_configured := false },
                 PyVal.int 10) :=
  dt_substitution
    { args := [DTArgV.s "x",
               DTArgV.f (fun v _ => match v with
                         | PyVal.int n => PyVal.int (n + n)
                         | w => w)],
      kwargs := [], scope := true, core_element_configured := false }
    [("x", Option.none)] "x"
    (fun v _ => match v with
     | PyVal.int n => PyVal.int (n + n)
     | w => w)
    false [PyVal.int 5] [] rfl rfl rfl (by simp) rfl (by decide)

end Pycompss
